import Mathlib

/-!
Shallow embedding of the todo command-line tool (src/todo.c) and proofs of
its specified behavior.

Modelling conventions:
* The store file `list.txt` is modelled as `Option (List String)`:
  `none` means the file is absent (or cannot be opened for reading), and
  `some l` means the file exists and holds the lines `l`, each line being a
  task description without its trailing newline.  The program itself only
  ever writes newline-terminated lines (add uses `fprintf "%s\n"`, clear
  truncates, finish copies `fgets` output), so the line-list view is exact
  for every state the program can produce.  Task texts are single lines
  shorter than the 256-byte `fgets` buffer, exactly the data model of the
  specification (a task is one line of text).
* The temporary file `.list_buffer.txt` is modelled the same way in a
  separate field.
* Standard output is modelled byte-for-byte as a `String` (all stdout
  writes in the C code are plain `printf` with known text).  Standard
  error is modelled as a list of tagged messages `Msg`, because `perror`
  appends an errno-dependent suffix that is not determined by the program;
  each tag records which fixed format string of todo.c was printed.
* Fallible C library calls (`fopen` for writing, `fputs`, `ferror`,
  `fclose`, `remove`, `rename`) are given explicit outcomes by an oracle
  `FSOracle` of booleans; `FSOracle.ok` is the run in which no call fails.
  `fopen("list.txt", "r")` failing is identified with the store being
  `none`, as in the first bullet.
* The C `int` parsed by `sscanf` is modelled as an unbounded `Int`
  (overflow of `%d` is undefined behavior in C and all claims use small
  values).
-/

set_option maxRecDepth 4000

namespace Todo

/-- Characters skipped by the `%d` conversion of `sscanf` (C `isspace` in
the default locale). -/
def isCSpace (c : Char) : Bool :=
  c = ' ' || c = '\t' || c = '\n' || c = '\r' || c = '\x0b' || c = '\x0c'

/-- Accumulate the value of a decimal digit sequence, most significant
digit first, as the `%d` conversion does. -/
def digitsToNat : List Char → Nat → Nat
  | [], acc => acc
  | c :: cs, acc => digitsToNat cs (acc * 10 + (c.toNat - Char.toNat '0'))

/-- Embeds `sscanf(task_number_str, "%d", &task_to_finish_num)` from
todo.c line 181: skip leading whitespace, read an optional sign, then a
nonempty run of decimal digits; return `none` when no digit is found
(`sscanf` then does not return 1), else the parsed value.  Characters
after the digit run are ignored, as `%d` stops at the first non-digit. -/
def sscanfD (s : String) : Option Int :=
  let cs := s.data.dropWhile isCSpace
  let signed : Bool × List Char :=
    match cs with
    | '-' :: r => (true, r)
    | '+' :: r => (false, r)
    | _ => (false, cs)
  let ds := signed.2.takeWhile Char.isDigit
  if ds.isEmpty then none
  else
    let n : Nat := digitsToNat ds 0
    some (if signed.1 then -(n : Int) else (n : Int))

/-- The command words recognized by the dispatcher (todo.c lines 26-33). -/
inductive CommandType where
  | ADD
  | LIST
  | HELP
  | CLEAR
  | FINISH
  | UNKNOWN
deriving Repr, DecidableEq

/-- Embeds `get_command_type` (todo.c lines 83-97). -/
def get_command_type (command_str : String) : CommandType :=
  if command_str = "add" then .ADD
  else if command_str = "list" then .LIST
  else if command_str = "help" then .HELP
  else if command_str = "clear" then .CLEAR
  else if command_str = "finish" then .FINISH
  else .UNKNOWN

/-- Tags for the fixed stderr format strings of todo.c.  Each constructor
names one `fprintf(stderr, ...)` or `perror(...)` call site; `perror`
output additionally carries an errno-dependent suffix not determined by
the program, which is why stderr is tagged rather than modelled
byte-for-byte. -/
inductive Msg where
  /-- `No command provided. Use ... help ...` (line 44). -/
  | noCommand (app : String)
  /-- `Too many args are given. ...` (line 47). -/
  | tooManyArgs (app : String)
  /-- `Unknown command: ...` (line 76). -/
  | unknownCommand (cmd : String)
  /-- `Usage: ... add ...` (line 102). -/
  | usageAdd (app : String)
  /-- `perror` on failing to open list.txt for appending (line 108). -/
  | perrorAddOpen
  /-- `The list command cannot be followed by any arguments.` (line 119). -/
  | listNoArgs
  /-- `Todo list is empty or cannot be opened.` (line 124). -/
  | listEmptyOrCannotOpen
  /-- `The clear command cannot be followed by any arguments.` (line 155). -/
  | clearNoArgs
  /-- `perror` on failing to open list.txt for truncation (line 160). -/
  | perrorClearOpen
  /-- `Usage: ... finish <task_number>` (lines 170 and 176). -/
  | usageFinish (app : String)
  /-- `Error: Task number not provided.` (line 175). -/
  | taskNumberMissing
  /-- `Error: Invalid task number ... must be a positive integer.`
  (line 182). -/
  | invalidTaskNumber (arg : String)
  /-- `Todo list is empty or cannot be accessed. No task to finish.`
  (line 188). -/
  | finishEmptyInaccessible
  /-- `perror` on failing to create the temporary file (line 195). -/
  | perrorTempCreate
  /-- `perror` on a failed write to the temporary file (line 213). -/
  | perrorTempWrite
  /-- `perror` on a read error from list.txt (line 224). -/
  | perrorListRead
  /-- `perror` on failing to close the temporary file (line 233). -/
  | perrorTempClose
  /-- `Error: Task k not found. Tasks are numbered 1 to n.` (line 242). -/
  | taskNotFound (k : Int) (n : Nat)
  /-- `perror` on failing to delete the original list.txt (line 248). -/
  | perrorRemoveOriginal
  /-- `The updated list may be in ... Please check manually.` (line 249). -/
  | checkTempManually
  /-- `perror` on failing to rename the temporary file (line 253). -/
  | perrorRename
  /-- `CRITICAL ERROR: ... PLEASE RECOVER IT MANUALLY ...`
  (lines 254-255). -/
  | criticalRecoverTemp
deriving Repr, DecidableEq

/-- Observable result of one invocation: final store file, final
temporary file, stdout (exact bytes), stderr (tagged messages in emission
order), and the process exit code. -/
structure RunResult where
  store : Option (List String)
  temp : Option (List String)
  stdout : String
  stderr : List Msg
  exitCode : Nat
deriving Repr, DecidableEq

/-- Outcomes of the fallible file-system calls of one invocation.
`tempWriteFail` makes the first `fputs` to the temporary file fail (it is
irrelevant when no line is ever written). -/
structure FSOracle where
  addOpenFail : Bool
  clearOpenFail : Bool
  tempOpenFail : Bool
  tempWriteFail : Bool
  listReadFail : Bool
  tempCloseFail : Bool
  removeFail : Bool
  renameFail : Bool
deriving Repr, DecidableEq

/-- The oracle of a run in which every file-system call succeeds. -/
def FSOracle.ok : FSOracle :=
  ⟨false, false, false, false, false, false, false, false⟩

/-- The oracle in which only `remove("list.txt")` fails. -/
def removeFailOracle : FSOracle :=
  ⟨false, false, false, false, false, false, true, false⟩

/-- The oracle in which only the rename of the temporary file fails. -/
def renameFailOracle : FSOracle :=
  ⟨false, false, false, false, false, false, false, true⟩

/-- Embeds `add` (todo.c lines 99-114).  `task` is `argv[2]`, absent when
`argc < 3` (in which case the usage check fires first, as in C). -/
def add (fs : FSOracle) (argc : Nat) (task : Option String) (app_name : String)
    (store temp : Option (List String)) : RunResult :=
  if argc < 3 then ⟨store, temp, "", [.usageAdd app_name], 1⟩
  else if fs.addOpenFail then ⟨store, temp, "", [.perrorAddOpen], 1⟩
  else
    let t := task.getD ""
    ⟨some (store.getD [] ++ [t]), temp, "Task added: " ++ t ++ "\n", [], 0⟩

/-- Stdout produced by the `while (fgets(...))` loop of `list`
(todo.c lines 132-134): each line printed as `i. <line>` with the
1-based counter `i` starting at the given value. -/
def listBody : List String → Nat → String
  | [], _ => ""
  | x :: xs, i => (toString i ++ ". " ++ x ++ "\n") ++ listBody xs (i + 1)

/-- Embeds `list` (todo.c lines 116-138).  A store of `none` is the case
in which `fopen("list.txt", "r")` returns NULL. -/
def list (argc : Nat) (store temp : Option (List String)) : RunResult :=
  if argc > 2 then ⟨store, temp, "", [.listNoArgs], 1⟩
  else
    match store with
    | none => ⟨store, temp, "", [.listEmptyOrCannotOpen], 1⟩
    | some l =>
      ⟨store, temp,
        "\n--- Your Todo List ---\n" ++ listBody l 1 ++ "--- End of List ---\n\n",
        [], 0⟩

/-- Embeds `help` (todo.c lines 140-150): the fixed usage banner printed
to stdout, with `app_name` substituted for each `%s`. -/
def help (app_name : String) : String :=
  "Todo List Application\nUsage:\n  " ++ app_name ++
  " add \"<task description>\"  - Adds a new task\n  " ++ app_name ++
  " list                      - Lists all tasks\n  " ++ app_name ++
  " finish <task_number>       - Finishes (removes) a task by its number\n  " ++ app_name ++
  " help                      - Shows this help message\n  " ++ app_name ++
  " clear                     - Clear all tasks\n"

/-- Embeds `clear` (todo.c lines 152-165): truncate (or create empty) the
store via `fopen("list.txt", "w")`. -/
def clear (fs : FSOracle) (argc : Nat) (store temp : Option (List String)) :
    RunResult :=
  if argc > 2 then ⟨store, temp, "", [.clearNoArgs], 1⟩
  else if fs.clearOpenFail then ⟨store, temp, "", [.perrorClearOpen], 1⟩
  else ⟨some [], temp, "All tasks cleared successfully.\n", [], 0⟩

/-- Embeds the copy loop of `finish` (todo.c lines 205-221): walk the
lines with a 1-based counter, drop the line whose counter equals the
requested number and record it, keep every other line in order.  Returns
the kept lines and the recorded line (`none` when the counter never hits
the requested number, i.e. `task_found_and_skipped` stays 0). -/
def finishSplit : List String → Nat → List String × Option String
  | [], _ => ([], none)
  | x :: xs, k =>
    if k = 1 then (xs, some x)
    else
      let p := finishSplit xs (k - 1)
      (x :: p.1, p.2)

/-- Embeds `finish` (todo.c lines 167-260).  `task_number_str` is
`argv[2]` (absent means NULL).  The branches appear in source order:
argument-count check, NULL check, `sscanf` validation, opening the store,
creating the temporary file, the copy loop (first `fputs` failing if
`tempWriteFail` and at least one line is kept), `ferror`, closing the
temporary file, the not-found report, then delete-and-rename. -/
def finish (fs : FSOracle) (argc : Nat) (task_number_str : Option String)
    (app_name : String) (store temp : Option (List String)) : RunResult :=
  if argc ≠ 3 then ⟨store, temp, "", [.usageFinish app_name], 1⟩
  else
    match task_number_str with
    | none => ⟨store, temp, "", [.taskNumberMissing, .usageFinish app_name], 1⟩
    | some s =>
      match sscanfD s with
      | none => ⟨store, temp, "", [.invalidTaskNumber s], 1⟩
      | some v =>
        if v ≤ 0 then ⟨store, temp, "", [.invalidTaskNumber s], 1⟩
        else
          match store with
          | none => ⟨store, temp, "", [.finishEmptyInaccessible], 1⟩
          | some l =>
            if fs.tempOpenFail then
              ⟨store, temp, "", [.perrorTempCreate], 1⟩
            else
              let p := finishSplit l v.toNat
              if fs.tempWriteFail ∧ p.1 ≠ [] then
                ⟨store, none, "", [.perrorTempWrite], 1⟩
              else if fs.listReadFail then
                ⟨store, none, "", [.perrorListRead], 1⟩
              else if fs.tempCloseFail then
                ⟨store, none, "", [.perrorTempClose], 1⟩
              else
                match p.2 with
                | none =>
                  if l.length = 0 then
                    ⟨store, none, "Todo list is empty. No task to finish.\n", [], 1⟩
                  else
                    ⟨store, none, "", [.taskNotFound v l.length], 1⟩
                | some removed_text =>
                  if fs.removeFail then
                    ⟨store, some p.1, "", [.perrorRemoveOriginal, .checkTempManually], 1⟩
                  else if fs.renameFail then
                    ⟨none, some p.1, "", [.perrorRename, .criticalRecoverTemp], 1⟩
                  else
                    ⟨some p.1, none,
                      "Task " ++ toString v ++ " finished: " ++ removed_text ++ "\n",
                      [], 0⟩

/-- Embeds `main` (todo.c lines 42-81): global argument-count checks,
then dispatch on the command word.  `args` is `argv[1..]`, so
`argc = args.length + 1`; `argv[2]` is passed to `add` and `finish` as an
`Option` (NULL when fewer than three arguments were given). -/
def main (fs : FSOracle) (argv0 : String) (args : List String)
    (store temp : Option (List String)) : RunResult :=
  let argc := args.length + 1
  if argc < 2 then ⟨store, temp, "", [.noCommand argv0], 1⟩
  else if argc > 3 then ⟨store, temp, "", [.tooManyArgs argv0], 1⟩
  else
    match get_command_type (args.headD "") with
    | .ADD => add fs argc (args.get? 1) argv0 store temp
    | .LIST => list argc store temp
    | .HELP => ⟨store, temp, help argv0, [], 0⟩
    | .CLEAR => clear fs argc store temp
    | .FINISH => finish fs argc (args.get? 1) argv0 store temp
    | .UNKNOWN => ⟨store, temp, "", [.unknownCommand (args.headD "")], 1⟩

/-- Running a sequence of `add` commands (each with the failure-free
oracle and a well-formed command line) and threading the store and
temporary file through. -/
def runAdds (app_name : String) : List String → Option (List String) →
    Option (List String) → Option (List String) × Option (List String)
  | [], store, temp => (store, temp)
  | t :: ts, store, temp =>
    let r := add FSOracle.ok 3 (some t) app_name store temp
    runAdds app_name ts r.store r.temp

/-- The copy loop drops exactly the line at 1-based position `k` (when it
exists) and records it: for `1 ≤ k` the kept lines are
`l.take (k-1) ++ l.drop k` and the recorded line is `l.get? (k-1)`. -/
theorem finishSplit_eq (l : List String) (k : Nat) (hk : 1 ≤ k) :
    finishSplit l k = (l.take (k - 1) ++ l.drop k, l.get? (k - 1)) := by
  induction l generalizing k with
  | nil => simp [finishSplit]
  | cons x xs ih =>
    match k, hk with
    | 1, _ => simp [finishSplit]
    | (j + 2), _ =>
      have hh := ih (j + 1) (by omega)
      have e1 : j + 1 - 1 = j := rfl
      have e2 : j + 2 - 1 = j + 1 := rfl
      simp only [finishSplit, if_neg (by omega : ¬ j + 2 = 1)]
      rw [e2, hh, e1]
      simp [List.take_succ_cons, List.drop_succ_cons, List.get?_cons_succ]

/-- The stdout of the listing loop, entry by entry: line `p.2` at 1-based
position `p.1` is printed as `p.1 ++ ". " ++ p.2 ++ "\n"`. -/
theorem listBody_enumFrom (l : List String) (i : Nat) :
    listBody l i =
      ((List.enumFrom i l).map (fun p => toString p.1 ++ ". " ++ p.2 ++ "\n")).foldr
        (· ++ ·) "" := by
  induction l generalizing i with
  | nil => simp [listBody]
  | cons x xs ih => simp [listBody, List.enumFrom_cons, ih]

/-- Running `add` commands over an existing store appends the texts in
order and touches nothing else. -/
theorem runAdds_some (app_name : String) (ts : List String) (l : List String)
    (temp : Option (List String)) :
    runAdds app_name ts (some l) temp = (some (l ++ ts), temp) := by
  induction ts generalizing l with
  | nil => simp [runAdds]
  | cons t ts ih =>
    show runAdds app_name ts (add FSOracle.ok 3 (some t) app_name (some l) temp).store
        (add FSOracle.ok 3 (some t) app_name (some l) temp).temp = _
    have ha : add FSOracle.ok 3 (some t) app_name (some l) temp =
        ⟨some (l ++ [t]), temp, "Task added: " ++ t ++ "\n", [], 0⟩ := by
      simp [add, FSOracle.ok]
    rw [ha]
    show runAdds app_name ts (some (l ++ [t])) temp = _
    rw [ih (l ++ [t])]
    simp

/-- A fully successful `finish` on an in-range request: the store becomes
the kept lines, the temporary file is gone, and the removed line is
reported on stdout. -/
theorem finish_ok_success (l : List String) (s app : String)
    (temp : Option (List String)) (v : Int)
    (h : sscanfD s = some v) (h1 : 1 ≤ v) (h2 : v.toNat ≤ l.length) :
    finish FSOracle.ok 3 (some s) app (some l) temp =
      ⟨some (l.take (v.toNat - 1) ++ l.drop v.toNat), none,
        "Task " ++ toString v ++ " finished: " ++ (l.get? (v.toNat - 1)).getD "" ++ "\n",
        [], 0⟩ := by
  have hlt : v.toNat - 1 < l.length := by omega
  simp only [finish, h, if_neg (by omega : ¬ v ≤ 0), FSOracle.ok,
    finishSplit_eq l v.toNat (by omega)]
  simp [List.getElem?_eq_getElem hlt]

/-- C1 counterexample: starting from a one-task store, running `clear`
and then `list` exits with code 0 and an empty stderr, printing the
header/footer banner with zero task lines — because `clear` leaves an
existing empty `list.txt` behind, which `list` opens successfully.  This
contradicts the claim that the `list` invocation fails with the empty
policy and exit 1. -/
theorem clear_then_list_succeeds_cex :
    (Todo.list 2 (Todo.clear FSOracle.ok 2 (some ["task"]) none).store
        (Todo.clear FSOracle.ok 2 (some ["task"]) none).temp).exitCode = 0 ∧
    (Todo.list 2 (Todo.clear FSOracle.ok 2 (some ["task"]) none).store
        (Todo.clear FSOracle.ok 2 (some ["task"]) none).temp).stderr = [] ∧
    (Todo.list 2 (Todo.clear FSOracle.ok 2 (some ["task"]) none).store
        (Todo.clear FSOracle.ok 2 (some ["task"]) none).temp).stdout =
      "\n--- Your Todo List ---\n--- End of List ---\n\n" := by
  decide

/-- C1 (amended): after a successful `clear` from any prior state, the
store is an existing empty file, and a subsequent `list` succeeds with
exit code 0, printing the header/footer banner with zero task lines; the
empty-policy failure of section 4.3 applies only when the store file is
absent. -/
theorem clear_then_list_empty_banner (store temp : Option (List String)) :
    (Todo.clear FSOracle.ok 2 store temp).store = some [] ∧
    (Todo.clear FSOracle.ok 2 store temp).exitCode = 0 ∧
    Todo.list 2 (Todo.clear FSOracle.ok 2 store temp).store
        (Todo.clear FSOracle.ok 2 store temp).temp =
      ⟨some [], temp, "\n--- Your Todo List ---\n" ++ "--- End of List ---\n\n",
        [], 0⟩ := by
  simp [Todo.clear, Todo.list, listBody, FSOracle.ok]

/-- C2 counterexample: the argument string `3abc` is not a decimal
numeral of a positive integer, yet `finish` does not fail: `sscanf` with
`%d` parses the prefix `3`, the run succeeds with exit code 0 and the
store is rewritten (task 3 removed).  This contradicts the claim that
every such string is rejected with a validation error before the store is
touched. -/
theorem finish_trailing_junk_accepted_cex :
    (finish FSOracle.ok 3 (some "3abc") "P" (some ["a", "b", "c"]) none).exitCode = 0 ∧
    (finish FSOracle.ok 3 (some "3abc") "P" (some ["a", "b", "c"]) none).store =
      some ["a", "b"] := by
  decide

/-- C2 (amended): `finish` fails with the validation error and exit 1,
before touching the store or the temporary file, exactly when the `%d`
conversion of `sscanf` fails on the argument (no digit after optional
whitespace and sign) or the parsed value is not positive; a string with
trailing non-numeric characters after a valid integer prefix is accepted
with the value of that prefix. -/
theorem finish_invalid_number_rejected (fs : FSOracle) (s app : String)
    (store temp : Option (List String))
    (h : sscanfD s = none ∨ ∃ v, sscanfD s = some v ∧ v ≤ 0) :
    finish fs 3 (some s) app store temp =
      ⟨store, temp, "", [.invalidTaskNumber s], 1⟩ := by
  rcases h with h | ⟨v, h, hv⟩
  · simp [finish, h]
  · simp [finish, h, hv]

/-- C2 witness: the theorem applied to the non-numeric argument `abc`. -/
theorem finish_invalid_number_rejected_witness :
    finish FSOracle.ok 3 (some "abc") "P" (some ["a"]) none =
      ⟨some ["a"], none, "", [.invalidTaskNumber "abc"], 1⟩ :=
  finish_invalid_number_rejected FSOracle.ok "abc" "P" (some ["a"]) none
    (Or.inl (by decide))

/-- C3 counterexample: with prior store `["a"]`, running `add "b"` and
then `finish 1` leaves the store holding `["b"]`, not the pre-add content
`["a"]` — `finish 1` removes the first task, which is the pre-existing
one, not the task just appended.  This contradicts the claimed
round-trip for every prior store content. -/
theorem add_then_finish_one_cex :
    (finish FSOracle.ok 3 (some "1") "P"
        (add FSOracle.ok 3 (some "b") "P" (some ["a"]) none).store
        (add FSOracle.ok 3 (some "b") "P" (some ["a"]) none).temp).store =
      some ["b"] ∧
    (some ["b"] : Option (List String)) ≠ some ["a"] := by
  decide

/-- C3 (amended): for an existing prior store with `n` tasks, `add x`
followed by `finish (n+1)` — the position at which `add` appended `x` —
returns the store to its pre-add content, with the temporary buffer file
absent afterward; `finish 1` only completes this round-trip when the
prior store is empty, since it removes the first task. -/
theorem add_then_finish_last_roundtrip (l : List String) (x s app : String)
    (temp : Option (List String))
    (h : sscanfD s = some ((l.length : Int) + 1)) :
    finish FSOracle.ok 3 (some s) app
        (add FSOracle.ok 3 (some x) app (some l) temp).store
        (add FSOracle.ok 3 (some x) app (some l) temp).temp =
      ⟨some l, none,
        "Task " ++ toString ((l.length : Int) + 1) ++ " finished: " ++ x ++ "\n",
        [], 0⟩ := by
  have ha : add FSOracle.ok 3 (some x) app (some l) temp =
      ⟨some (l ++ [x]), temp, "Task added: " ++ x ++ "\n", [], 0⟩ := by
    simp [add, FSOracle.ok]
  rw [ha]
  show finish FSOracle.ok 3 (some s) app (some (l ++ [x])) temp = _
  have hs := finish_ok_success (l ++ [x]) s app temp ((l.length : Int) + 1) h
    (by omega) (by simp)
  have ht : ((l.length : Int) + 1).toNat = l.length + 1 := by omega
  rw [hs, ht]
  simp [List.take_left, List.getElem?_concat_length,
    List.drop_eq_nil_of_le (by simp : (l ++ [x]).length ≤ l.length + 1)]

/-- C3 witness: the amended round-trip on the prior store `["a"]` with
added task `b` and `finish 2`. -/
theorem add_then_finish_last_roundtrip_witness :
    finish FSOracle.ok 3 (some "2") "P"
        (add FSOracle.ok 3 (some "b") "P" (some ["a"]) none).store
        (add FSOracle.ok 3 (some "b") "P" (some ["a"]) none).temp =
      ⟨some ["a"], none,
        "Task " ++ toString (((["a"] : List String).length : Int) + 1) ++
          " finished: " ++ "b" ++ "\n",
        [], 0⟩ :=
  add_then_finish_last_roundtrip ["a"] "b" "2" "P" none (by decide)

/-- C4 counterexample: on a store holding zero tasks, `finish 1` (with
`k > n`) exits 1 and leaves the store unchanged, but it does not report
the valid range: stderr is empty and the message
`Todo list is empty. No task to finish.` goes to stdout instead.  This
contradicts the claim that the valid range `[1, n]` is reported whenever
`k > n`. -/
theorem finish_out_of_range_empty_msg_cex :
    (finish FSOracle.ok 3 (some "1") "P" (some []) none).exitCode = 1 ∧
    (finish FSOracle.ok 3 (some "1") "P" (some []) none).stderr = [] ∧
    (finish FSOracle.ok 3 (some "1") "P" (some []) none).stdout =
      "Todo list is empty. No task to finish.\n" := by
  decide

/-- C4 (amended): for a store holding `n` tasks and a parsed request `v`
with `v ≤ 0` or `v > n`, `finish` exits 1 and leaves the store unchanged;
it reports a validation error for `v ≤ 0`, the valid range `[1, n]` for
`v > n` when `n ≥ 1`, and the empty-list message (on stdout) for `v > n`
when `n = 0`. -/
theorem finish_out_of_range_fails (l : List String) (s app : String)
    (temp : Option (List String)) (v : Int)
    (h : sscanfD s = some v) (hout : v ≤ 0 ∨ (l.length : Int) < v) :
    (finish FSOracle.ok 3 (some s) app (some l) temp).exitCode = 1 ∧
    (finish FSOracle.ok 3 (some s) app (some l) temp).store = some l ∧
    finish FSOracle.ok 3 (some s) app (some l) temp =
      (if v ≤ 0 then ⟨some l, temp, "", [.invalidTaskNumber s], 1⟩
       else if l.length = 0 then
         ⟨some l, none, "Todo list is empty. No task to finish.\n", [], 1⟩
       else ⟨some l, none, "", [.taskNotFound v l.length], 1⟩ : RunResult) := by
  rcases hout with hle | hgt
  · rw [if_pos hle]
    have := finish_invalid_number_rejected FSOracle.ok s app (some l) temp
      (Or.inr ⟨v, h, hle⟩)
    rw [this]
    exact ⟨rfl, rfl, rfl⟩
  · have hpos : ¬ v ≤ 0 := by omega
    rw [if_neg hpos]
    have hnone : l.get? (v.toNat - 1) = none :=
      List.get?_len_le (by omega)
    simp only [finish, h, if_neg hpos, FSOracle.ok,
      finishSplit_eq l v.toNat (by omega)]
    simp only [List.get?_eq_getElem?] at hnone
    simp [hnone]
    split
    · simp_all
    · simp_all

/-- C4 witness: the theorem applied to request 5 on the one-task store
`["a"]`. -/
theorem finish_out_of_range_fails_witness :
    (finish FSOracle.ok 3 (some "5") "P" (some ["a"]) none).exitCode = 1 ∧
    (finish FSOracle.ok 3 (some "5") "P" (some ["a"]) none).store = some ["a"] ∧
    finish FSOracle.ok 3 (some "5") "P" (some ["a"]) none =
      (if (5 : Int) ≤ 0 then ⟨some ["a"], none, "", [.invalidTaskNumber "5"], 1⟩
       else if (["a"] : List String).length = 0 then
         ⟨some ["a"], none, "Todo list is empty. No task to finish.\n", [], 1⟩
       else ⟨some ["a"], none, "", [.taskNotFound 5 (["a"] : List String).length], 1⟩ :
        RunResult) :=
  finish_out_of_range_fails ["a"] "5" "P" none 5 (by decide) (Or.inr (by decide))

/-- C5: for a store holding tasks `l` and a request `v` with
`1 ≤ v ≤ l.length`, a successful `finish` removes exactly the task at
1-based position `v`: the store becomes the tasks before position `v`
followed by the tasks after it (so later tasks shift down by one in
subsequent listings), the removed text is reported on stdout, the
temporary file is gone, and the exit code is 0. -/
theorem finish_removes_kth (l : List String) (s app : String)
    (temp : Option (List String)) (v : Int)
    (h : sscanfD s = some v) (h1 : 1 ≤ v) (h2 : v.toNat ≤ l.length) :
    finish FSOracle.ok 3 (some s) app (some l) temp =
      ⟨some (l.take (v.toNat - 1) ++ l.drop v.toNat), none,
        "Task " ++ toString v ++ " finished: " ++ (l.get? (v.toNat - 1)).getD "" ++ "\n",
        [], 0⟩ :=
  finish_ok_success l s app temp v h h1 h2

/-- C5 witness: finishing task 2 of a three-task store removes exactly
the middle task and reports it. -/
theorem finish_removes_kth_witness :
    finish FSOracle.ok 3 (some "2") "P" (some ["a", "b", "c"]) none =
      ⟨some ["a", "c"], none, "Task 2 finished: b\n", [], 0⟩ :=
  (finish_removes_kth ["a", "b", "c"] "2" "P" none 2 (by decide) (by decide)
    (by decide)).trans (by decide)

/-- C6: starting from an existing empty store, or from an absent store
with at least one task added, running `add` for the texts `ts` in order
and then `list` prints exactly the entries for `ts`, numbered from 1 in
insertion order, between the header and footer banners, with exit code 0.
In the remaining degenerate case (absent store, no `add` at all), `list`
fails under the empty-store policy of section 4.3 and prints no entries,
which is the subject of C7. -/
theorem adds_then_list_enumerates (ts : List String)
    (store0 temp : Option (List String))
    (h : store0 = some [] ∨ (store0 = none ∧ ts ≠ [])) :
    (runAdds "P" ts store0 temp).1 = some ts ∧
    Todo.list 2 (runAdds "P" ts store0 temp).1 (runAdds "P" ts store0 temp).2 =
      ⟨some ts, temp,
        "\n--- Your Todo List ---\n" ++
          ((List.enumFrom 1 ts).map
            (fun p => toString p.1 ++ ". " ++ p.2 ++ "\n")).foldr (· ++ ·) "" ++
          "--- End of List ---\n\n",
        [], 0⟩ := by
  have hrun : runAdds "P" ts store0 temp = (some ts, temp) := by
    rcases h with rfl | ⟨rfl, hne⟩
    · simpa using runAdds_some "P" ts [] temp
    · match ts, hne with
      | t :: ts, _ =>
        show runAdds "P" ts (add FSOracle.ok 3 (some t) "P" none temp).store
            (add FSOracle.ok 3 (some t) "P" none temp).temp = _
        have ha : add FSOracle.ok 3 (some t) "P" none temp =
            ⟨some [t], temp, "Task added: " ++ t ++ "\n", [], 0⟩ := by
          simp [add, FSOracle.ok]
        rw [ha]
        show runAdds "P" ts (some [t]) temp = _
        simpa using runAdds_some "P" ts [t] temp
  rw [hrun]
  exact ⟨rfl, by simp [Todo.list, listBody_enumFrom]⟩

/-- C6 witness: two adds starting from an absent store, then `list`. -/
theorem adds_then_list_enumerates_witness :
    (runAdds "P" ["milk", "eggs"] none none).1 = some ["milk", "eggs"] ∧
    Todo.list 2 (runAdds "P" ["milk", "eggs"] none none).1
        (runAdds "P" ["milk", "eggs"] none none).2 =
      ⟨some ["milk", "eggs"], none,
        "\n--- Your Todo List ---\n" ++
          ((List.enumFrom 1 ["milk", "eggs"]).map
            (fun p => toString p.1 ++ ". " ++ p.2 ++ "\n")).foldr (· ++ ·) "" ++
          "--- End of List ---\n\n",
        [], 0⟩ :=
  adds_then_list_enumerates ["milk", "eggs"] none none (Or.inr ⟨rfl, by decide⟩)

/-- C7: when the store file is absent (or unopenable for reading), `list`
fails with the empty-or-cannot-open message and exit 1, and `finish` with
any validly parsed positive task number fails with the
empty-or-inaccessible message and exit 1; neither prints any task output
on stdout and neither touches the store or the temporary file. -/
theorem absent_store_list_finish_fail (fs : FSOracle) (s app : String)
    (temp : Option (List String)) (v : Int)
    (h : sscanfD s = some v) (hv : 0 < v) :
    Todo.list 2 none temp = ⟨none, temp, "", [.listEmptyOrCannotOpen], 1⟩ ∧
    finish fs 3 (some s) app none temp =
      ⟨none, temp, "", [.finishEmptyInaccessible], 1⟩ := by
  constructor
  · simp [Todo.list]
  · simp [finish, h, show ¬ v ≤ 0 by omega]

/-- C7 witness: the theorem applied to `finish 1` with the failure-free
oracle. -/
theorem absent_store_list_finish_fail_witness :
    Todo.list 2 none none = ⟨none, none, "", [.listEmptyOrCannotOpen], 1⟩ ∧
    finish FSOracle.ok 3 (some "1") "P" none none =
      ⟨none, none, "", [.finishEmptyInaccessible], 1⟩ :=
  absent_store_list_finish_fail FSOracle.ok "1" "P" none 1 (by decide) (by decide)

/-- C8 counterexample: with `remove("list.txt")` failing (and every
other call succeeding), `finish 1` on the store `["a", "b"]` exits 1 and
leaves the temporary buffer file behind holding `["b"]`, while its stderr
is the delete-failure report and check-manually hint — not the CRITICAL
warning of the delete-then-rename recovery case.  So a failure path that
created the temporary file exits without removing it outside the
documented critical-failure case, contradicting the claim. -/
theorem temp_survives_remove_failure_cex :
    (finish removeFailOracle 3 (some "1") "P" (some ["a", "b"]) none).temp =
      some ["b"] ∧
    (finish removeFailOracle 3 (some "1") "P" (some ["a", "b"]) none).stderr =
      [.perrorRemoveOriginal, .checkTempManually] ∧
    Msg.criticalRecoverTemp ∉
      (finish removeFailOracle 3 (some "1") "P" (some ["a", "b"]) none).stderr := by
  decide

/-- C8 (amended): starting with no temporary buffer file, the temporary
file survives a `finish` invocation only when the delete-then-rename step
fails — either deleting the original store fails (the temporary file is
kept, the original store is untouched, and the check-manually hint is
printed) or the rename fails after the original was deleted (the
documented CRITICAL case: the store is gone and the loud recovery warning
is printed) — and in both cases the exit code is 1.  Every other exit
path, in particular every failure path before the delete, removes the
temporary file before exiting. -/
theorem temp_survival_characterization (fs : FSOracle) (argc : Nat)
    (arg : Option String) (app : String) (store : Option (List String))
    (h : (finish fs argc arg app store none).temp ≠ none) :
    (finish fs argc arg app store none).exitCode = 1 ∧
    ((fs.removeFail = true ∧
        (finish fs argc arg app store none).store = store ∧
        (finish fs argc arg app store none).stderr =
          [.perrorRemoveOriginal, .checkTempManually]) ∨
      (fs.removeFail = false ∧ fs.renameFail = true ∧
        (finish fs argc arg app store none).store = none ∧
        (finish fs argc arg app store none).stderr =
          [.perrorRename, .criticalRecoverTemp])) := by
  revert h
  unfold finish
  repeat' split
  all_goals intro h
  all_goals try simp_all
  all_goals try (split_ifs at h ⊢ <;> try simp_all)
  all_goals (split at h <;> simp_all)

/-- C8 witness: the theorem applied to the rename-failure run of
`finish 1` on the store `["a", "b"]`, whose temporary file survives. -/
theorem temp_survival_characterization_witness :
    (finish renameFailOracle 3 (some "1") "P" (some ["a", "b"]) none).exitCode = 1 ∧
    ((renameFailOracle.removeFail = true ∧
        (finish renameFailOracle 3 (some "1") "P" (some ["a", "b"]) none).store =
          some ["a", "b"] ∧
        (finish renameFailOracle 3 (some "1") "P" (some ["a", "b"]) none).stderr =
          [.perrorRemoveOriginal, .checkTempManually]) ∨
      (renameFailOracle.removeFail = false ∧ renameFailOracle.renameFail = true ∧
        (finish renameFailOracle 3 (some "1") "P" (some ["a", "b"]) none).store = none ∧
        (finish renameFailOracle 3 (some "1") "P" (some ["a", "b"]) none).stderr =
          [.perrorRename, .criticalRecoverTemp])) :=
  temp_survival_characterization renameFailOracle 3 (some "1") "P"
    (some ["a", "b"]) (by decide)

/-- C9: running `clear` twice in succession is idempotent — each of the
two invocations succeeds with exit code 0 and prints the same success
message, and the store is the same existing empty file after the second
run as after the first. -/
theorem clear_idempotent (store temp : Option (List String)) :
    Todo.clear FSOracle.ok 2 store temp =
      ⟨some [], temp, "All tasks cleared successfully.\n", [], 0⟩ ∧
    Todo.clear FSOracle.ok 2 (Todo.clear FSOracle.ok 2 store temp).store
        (Todo.clear FSOracle.ok 2 store temp).temp =
      ⟨some [], temp, "All tasks cleared successfully.\n", [], 0⟩ := by
  simp [Todo.clear, FSOracle.ok]

/-- C10: `help` with one extra positional argument is accepted: the
global three-argument ceiling admits it and `help` itself performs no
argument-count check, so the usage banner is printed and the exit code is
0 with no state change — unlike `list` and `clear`, which reject an extra
argument with exit 1. -/
theorem help_extra_arg_accepted (fs : FSOracle) (extra : String)
    (store temp : Option (List String)) :
    Todo.main fs "P" ["help", extra] store temp =
      ⟨store, temp, help "P", [], 0⟩ ∧
    (Todo.main fs "P" ["list", extra] store temp).exitCode = 1 ∧
    (Todo.main fs "P" ["clear", extra] store temp).exitCode = 1 := by
  refine ⟨?_, ?_, ?_⟩ <;>
    simp [Todo.main, get_command_type, Todo.list, Todo.clear]

end Todo
